import Mathlib

/-!
Verification of the QUIC transport core (`transport.go`): the socket-reuse
pool (`connManager`), the `Dial` pipeline with its per-dial TLS verification
callback, and the capability queries (`CanDial`, `Protocols`, `Proxy`).

External collaborators (the OS socket layer, the x509 parser, the libp2p
identity derivation, the multiaddr codecs, and the quic-go session engine)
are modelled as oracle parameters; the code of `transport.go` itself is
embedded as pure functions with explicit state passing for the mutable
pool and an explicit action trace for session lifecycle events.
-/

/-- Opaque handle for a `net.PacketConn` (a UDP socket). -/
abbrev PacketConn := Nat

/-- Opaque handle for a resolved `*net.UDPAddr`. -/
abbrev UDPAddr := Nat

/-- Opaque handle for a multiaddr (`ma.Multiaddr`). -/
abbrev Multiaddr := Nat

/-- Opaque peer identifier (`peer.ID`). -/
abbrev PeerID := Nat

/-- Opaque public key (`ic.PubKey`). -/
abbrev PubKey := Nat

/-- Opaque private key (`ic.PrivKey`). -/
abbrev PrivKey := Nat

/-- Raw DER bytes of one certificate (an element of `rawCerts`). -/
abbrev RawCert := Nat

/-- Opaque parsed certificate (`*x509.Certificate`). -/
abbrev Certificate := Nat

/-- Opaque handle for an established quic session (`quic.Session`). -/
abbrev Session := Nat

/-- Opaque native network address (`net.Addr`), as returned by `sess.LocalAddr()`. -/
abbrev NetAddr := Nat

/-- Error values returned by the transport or its collaborators.
`unsupportedNetwork` embeds the offending network string, mirroring
`fmt.Errorf("unsupported network: %s", network)`; `peerIDsDontMatch` mirrors
`errors.New("peer IDs don't match")`; `other` stands for any collaborator
error value (parse errors, resolution errors, network failures...). -/
inductive Err where
  | unsupportedNetwork (network : String)
  | peerIDsDontMatch
  | other (code : Nat)
deriving DecidableEq, Repr

/-- Oracle for the OS socket layer used by `connManager.createConn`:
`net.ResolveUDPAddr` and `net.ListenUDP`. -/
structure NetEnv where
  resolveUDPAddr : String → String → Except Err UDPAddr
  listenUDP : String → UDPAddr → Except Err PacketConn

/-- State of the socket pool `connManager`: at most one cached outbound
socket per address family (the mutex is the linearization of calls, which
the explicit state passing already provides). -/
structure ConnManager where
  connIPv4 : Option PacketConn
  connIPv6 : Option PacketConn
deriving DecidableEq, Repr

/-- `connManager.createConn`: resolve the wildcard host, then open the UDP
socket; either step's error is propagated. -/
def createConn (env : NetEnv) (network host : String) : Except Err PacketConn :=
  match env.resolveUDPAddr network host with
  | Except.error e => Except.error e
  | Except.ok addr => env.listenUDP network addr

/-- `connManager.GetConnForAddr`: under the pool lock, return the cached
socket of the requested family if present, otherwise create one on the
wildcard address and port 0 and cache the result of the creation (on
failure the Go code assigns the `nil` result to the cached field, so a
failure is never cached as a socket). Any network other than `"udp4"` or
`"udp6"` fails with an unsupported-network error. -/
def GetConnForAddr (env : NetEnv) (c : ConnManager) (network : String) :
    Except Err PacketConn × ConnManager :=
  if network = "udp4" then
    match c.connIPv4 with
    | some conn => (Except.ok conn, c)
    | none =>
      match createConn env network "0.0.0.0:0" with
      | Except.ok conn => (Except.ok conn, { c with connIPv4 := some conn })
      | Except.error e => (Except.error e, { c with connIPv4 := none })
  else if network = "udp6" then
    match c.connIPv6 with
    | some conn => (Except.ok conn, c)
    | none =>
      match createConn env network ":0" with
      | Except.ok conn => (Except.ok conn, { c with connIPv6 := some conn })
      | Except.error e => (Except.error e, { c with connIPv6 := none })
  else
    (Except.error (Err.unsupportedNetwork network), c)

/-- Oracles for the external identity/certificate collaborators:
`x509.ParseCertificate`, the repository's `getRemotePubKey` (chain-to-key
extraction, defined outside this file's source), and the libp2p
`peer.IDFromPublicKey` derivation. -/
structure CryptoEnv where
  parseCertificate : RawCert → Except Err Certificate
  getRemotePubKey : List Certificate → Except Err PubKey
  idFromPublicKey : PubKey → Except Err PeerID

/-- `p.MatchesPublicKey(pk)` from go-libp2p-core: derive the peer ID from
the public key and compare with `p`; a derivation failure yields `false`. -/
def matchesPublicKey (crypto : CryptoEnv) (p : PeerID) (pk : PubKey) : Bool :=
  match crypto.idFromPublicKey pk with
  | Except.ok q => q == p
  | Except.error _ => false

/-- The closure installed by `Dial` as `tlsConf.VerifyPeerCertificate`
(transport.go lines 121-139): parse every raw certificate (stopping at the
first parse error), extract the remote public key from the chain, and fail
with `peerIDsDontMatch` unless the dialed peer ID matches that key. On
success the value of the closure-captured `remotePubKey` variable is
returned alongside. -/
def verifyPeerCertificateCallback (crypto : CryptoEnv) (p : PeerID)
    (rawCerts : List RawCert) : Except Err PubKey :=
  match rawCerts.mapM crypto.parseCertificate with
  | Except.error e => Except.error e
  | Except.ok chain =>
    match crypto.getRemotePubKey chain with
    | Except.error e => Except.error e
    | Except.ok remotePubKey =>
      if matchesPublicKey crypto p remotePubKey then Except.ok remotePubKey
      else Except.error Err.peerIDsDontMatch

/-- The fields of `tls.Config` this core touches: an opaque payload for the
certificate material produced by `generateConfig`, and the pluggable
`VerifyPeerCertificate` callback (`none` in the shared template). The
callback is modelled as returning the captured remote public key on
success. -/
structure TLSConfig where
  certChain : Nat
  verifyPeerCertificate : Option (List RawCert → Except Err PubKey)

/-- `tls.Config.Clone`: a copy of the configuration value; mutating the
clone's callback field leaves the original untouched. -/
def TLSConfig.clone (c : TLSConfig) : TLSConfig :=
  { certChain := c.certChain, verifyPeerCertificate := c.verifyPeerCertificate }

/-- The per-dial configuration built by `Dial`: clone the shared template,
then install the dial-specific verification callback on the clone. -/
def dialTLSConf (crypto : CryptoEnv) (base : TLSConfig) (p : PeerID) : TLSConfig :=
  { base.clone with verifyPeerCertificate := some (verifyPeerCertificateCallback crypto p) }

/-- Behaviour of the network/remote party for one dial attempt: an optional
failure before the handshake's verification step runs (network error,
timeout, context cancellation), the certificate chain the remote presents,
an optional failure after verification, and the session handle produced on
success. -/
structure QuicNet where
  preFail : Option Err
  remoteCerts : List RawCert
  postFail : Option Err
  session : Session

/-- Model of the external secure-session engine `quic.DialContext`
(spec 4.2 step 5 and spec 6): the handshake invokes the configuration's
verification callback on the raw certificate chain presented by the remote
party, fails if the callback fails, and on success yields the session
together with the final value of the callback's captured `remotePubKey`
variable (`none` models the Go zero value when no callback ran). -/
def quicDialContext (net : QuicNet) (_pconn : PacketConn) (_addr : UDPAddr)
    (_host : String) (conf : TLSConfig) : Except Err (Session × Option PubKey) :=
  match net.preFail with
  | some e => Except.error e
  | none =>
    match conf.verifyPeerCertificate with
    | none =>
      match net.postFail with
      | some e => Except.error e
      | none => Except.ok (net.session, none)
    | some verify =>
      match verify net.remoteCerts with
      | Except.error e => Except.error e
      | Except.ok pk =>
        match net.postFail with
        | some e => Except.error e
        | none => Except.ok (net.session, some pk)

/-- The `transport` struct: process identity, shared TLS template, and the
socket pool. -/
structure Transport where
  privKey : PrivKey
  localPeer : PeerID
  tlsConf : TLSConfig
  connManager : ConnManager

/-- The `conn` value built by a successful `Dial` (transport.go lines
148-157). `remotePubKey` is an `Option` because the Go field holds the
interface zero value until the verification callback assigns it. -/
structure Conn where
  sess : Session
  transport : Transport
  privKey : PrivKey
  localPeer : PeerID
  localMultiaddr : Multiaddr
  remotePubKey : Option PubKey
  remotePeerID : PeerID
  remoteMultiaddr : Multiaddr

/-- Session lifecycle events recorded by the embedding: establishment of a
quic session and (never emitted by `Dial`, which contains no close call)
teardown of a session. -/
inductive DialAction where
  | sessionEstablished (s : Session)
  | sessionClosed (s : Session)
deriving DecidableEq, Repr

/-- All external-collaborator oracles a dial consults: the OS socket layer,
the certificate/identity collaborators, the multiaddr codecs
(`manet.DialArgs`, `fromQuicMultiaddr`, `toQuicMultiaddr`), the session's
local-address accessor, and the network behaviour for this attempt. -/
structure DialEnv where
  netEnv : NetEnv
  crypto : CryptoEnv
  dialArgs : Multiaddr → Except Err (String × String)
  fromQuicMultiaddr : Multiaddr → Except Err UDPAddr
  toQuicMultiaddr : NetAddr → Except Err Multiaddr
  sessionLocalAddr : Session → NetAddr
  quicNet : QuicNet

/-- `transport.Dial` (transport.go lines 103-158): translate the remote
multiaddr to a network/host pair, acquire the pooled socket for that
network, translate the multiaddr to a native address, clone the TLS
template and install the verification callback, run the handshake, then
translate the session's local address back and build the `conn`. The
result carries the dial outcome, the transport after the call (only the
pool can change), and the trace of session lifecycle actions. -/
def Dial (env : DialEnv) (t : Transport) (raddr : Multiaddr) (p : PeerID) :
    Except Err Conn × Transport × List DialAction :=
  match env.dialArgs raddr with
  | Except.error e => (Except.error e, t, [])
  | Except.ok (network, _host) =>
    match GetConnForAddr env.netEnv t.connManager network with
    | (Except.error e, cm) => (Except.error e, { t with connManager := cm }, [])
    | (Except.ok pconn, cm) =>
      let t1 : Transport := { t with connManager := cm }
      match env.fromQuicMultiaddr raddr with
      | Except.error e => (Except.error e, t1, [])
      | Except.ok addr =>
        match quicDialContext env.quicNet pconn addr _host
            (dialTLSConf env.crypto t.tlsConf p) with
        | Except.error e => (Except.error e, t1, [])
        | Except.ok (sess, captured) =>
          match env.toQuicMultiaddr (env.sessionLocalAddr sess) with
          | Except.error e => (Except.error e, t1, [DialAction.sessionEstablished sess])
          | Except.ok localMultiaddr =>
            (Except.ok { sess := sess, transport := t1, privKey := t.privKey,
                         localPeer := t.localPeer, localMultiaddr := localMultiaddr,
                         remotePubKey := captured, remotePeerID := p,
                         remoteMultiaddr := raddr },
             t1, [DialAction.sessionEstablished sess])

/-- `ma.P_QUIC`, the protocol code of quic in go-multiaddr. -/
def pQUIC : Nat := 460

/-- `transport.CanDial`: delegate to the quic multiaddr grammar matcher
(`mafmt.QUIC.Matches`), supplied as an oracle. -/
def CanDial (quicMatches : Multiaddr → Bool) (_t : Transport) (addr : Multiaddr) : Bool :=
  quicMatches addr

/-- `transport.Proxy`: always false. -/
def Proxy (_t : Transport) : Bool :=
  false

/-- `transport.Protocols`: the singleton list holding `ma.P_QUIC`. -/
def Protocols (_t : Transport) : List Nat :=
  [pQUIC]

/-- Concrete socket-layer oracle: every creation succeeds with handle 42. -/
def netEnvW : NetEnv :=
  { resolveUDPAddr := fun _ _ => Except.ok 0, listenUDP := fun _ _ => Except.ok 42 }

/-- Concrete socket-layer oracle: every creation succeeds with handle 43. -/
def netEnvW2 : NetEnv :=
  { resolveUDPAddr := fun _ _ => Except.ok 0, listenUDP := fun _ _ => Except.ok 43 }

/-- Concrete socket-layer oracle: address resolution always fails. -/
def netEnvFail : NetEnv :=
  { resolveUDPAddr := fun _ _ => Except.error (Err.other 1),
    listenUDP := fun _ _ => Except.error (Err.other 1) }

/-- Pool with no cached socket. -/
def connManagerEmpty : ConnManager := { connIPv4 := none, connIPv6 := none }

/-- Pool after caching socket 42 for udp4. -/
def connManagerW1 : ConnManager := { connIPv4 := some 42, connIPv6 := none }

/-- Pool with only socket 7 cached for udp6. -/
def connManagerW6 : ConnManager := { connIPv4 := none, connIPv6 := some 7 }

/-- Pool with socket 42 cached for udp4 and socket 7 for udp6. -/
def connManagerW46 : ConnManager := { connIPv4 := some 42, connIPv6 := some 7 }

/-- Concrete identity oracle: certificates parse to themselves, the chain's
head is the extracted key, and key `pk` derives peer ID `pk + 1`. -/
def cryptoW : CryptoEnv :=
  { parseCertificate := Except.ok,
    getRemotePubKey := fun chain => Except.ok (chain.headD 0),
    idFromPublicKey := fun pk => Except.ok (pk + 1) }

/-- Concrete network behaviour: the remote presents the single raw
certificate 9 (so public key 9, derived peer ID 10) and the handshake
produces session 3. -/
def quicNetW : QuicNet :=
  { preFail := none, remoteCerts := [9], postFail := none, session := 3 }

/-- Concrete shared TLS template: no callback installed. -/
def tlsConfW : TLSConfig := { certChain := 0, verifyPeerCertificate := none }

/-- Concrete transport with identity (key 1, peer 2) and an empty pool. -/
def transportW : Transport :=
  { privKey := 1, localPeer := 2, tlsConf := tlsConfW, connManager := connManagerEmpty }

/-- `transportW` after its pool cached socket 42 for udp4. -/
def transportW1 : Transport := { transportW with connManager := connManagerW1 }

/-- Concrete dial environment in which every step succeeds. -/
def dialEnvW : DialEnv :=
  { netEnv := netEnvW, crypto := cryptoW,
    dialArgs := fun _ => Except.ok ("udp4", "192.0.2.1:4001"),
    fromQuicMultiaddr := Except.ok, toQuicMultiaddr := Except.ok,
    sessionLocalAddr := id, quicNet := quicNetW }

/-- `dialEnvW` with a failing multiaddr-to-dial-args translation. -/
def dialEnvArgFail : DialEnv :=
  { dialEnvW with dialArgs := fun _ => Except.error (Err.other 2) }

/-- `dialEnvW` with a failing local-address back-translation. -/
def dialEnvLocalFail : DialEnv :=
  { dialEnvW with toQuicMultiaddr := fun _ => Except.error (Err.other 3) }

/-- The connection produced by `Dial dialEnvW transportW 77 10`. -/
def connW : Conn :=
  { sess := 3, transport := transportW1, privKey := 1, localPeer := 2,
    localMultiaddr := 3, remotePubKey := some 9, remotePeerID := 10,
    remoteMultiaddr := 77 }

/-- Inversion for a successful handshake: when a verification callback is
installed, success means the callback accepted the presented chain, and the
captured key is exactly the callback's result. -/
theorem quicDialContext_ok_verify (net : QuicNet) (pconn : PacketConn) (addr : UDPAddr)
    (host : String) (conf : TLSConfig) (v : List RawCert → Except Err PubKey)
    (sess : Session) (cap : Option PubKey)
    (hconf : conf.verifyPeerCertificate = some v)
    (h : quicDialContext net pconn addr host conf = Except.ok (sess, cap)) :
    ∃ pk, v net.remoteCerts = Except.ok pk ∧ cap = some pk ∧ sess = net.session := by
  cases hpre : net.preFail with
  | some e => simp [quicDialContext, hpre] at h
  | none =>
    cases hv : v net.remoteCerts with
    | error e => simp [quicDialContext, hpre, hconf, hv] at h
    | ok pk =>
      cases hpost : net.postFail with
      | some e => simp [quicDialContext, hpre, hconf, hv, hpost] at h
      | none =>
        simp [quicDialContext, hpre, hconf, hv, hpost] at h
        exact ⟨pk, rfl, h.2.symm, h.1.symm⟩

/-- Inversion for the verification callback: acceptance implies the dialed
peer ID matches the extracted key. -/
theorem verifyPeerCertificateCallback_ok (crypto : CryptoEnv) (p : PeerID)
    (rcs : List RawCert) (pk : PubKey)
    (h : verifyPeerCertificateCallback crypto p rcs = Except.ok pk) :
    matchesPublicKey crypto p pk = true := by
  unfold verifyPeerCertificateCallback at h
  split at h
  · exact Except.noConfusion h
  · split at h
    · exact Except.noConfusion h
    · split at h
      · rename_i hm
        injection h with h2
        subst h2
        exact hm
      · exact Except.noConfusion h

/-- Inversion for a successful dial: the callback accepted the remote's
chain, and every identity field of the connection is as `Dial` builds it. -/
theorem Dial_ok_inv (env : DialEnv) (t : Transport) (raddr : Multiaddr) (p : PeerID)
    (c : Conn) (t' : Transport) (tr : List DialAction)
    (h : Dial env t raddr p = (Except.ok c, t', tr)) :
    ∃ pk, verifyPeerCertificateCallback env.crypto p env.quicNet.remoteCerts = Except.ok pk
      ∧ c.remotePubKey = some pk ∧ c.remotePeerID = p ∧ c.localPeer = t.localPeer
      ∧ c.privKey = t.privKey ∧ c.remoteMultiaddr = raddr := by
  cases hargs : env.dialArgs raddr with
  | error e => simp [Dial, hargs] at h
  | ok nh =>
    obtain ⟨network, host⟩ := nh
    rcases hga : GetConnForAddr env.netEnv t.connManager network with ⟨res, cm⟩
    cases res with
    | error e => simp [Dial, hargs, hga] at h
    | ok pconn =>
      cases haddr : env.fromQuicMultiaddr raddr with
      | error e => simp [Dial, hargs, hga, haddr] at h
      | ok addr =>
        cases hq : quicDialContext env.quicNet pconn addr host
            (dialTLSConf env.crypto t.tlsConf p) with
        | error e => simp [Dial, hargs, hga, haddr, hq] at h
        | ok sc =>
          obtain ⟨sess, cap⟩ := sc
          cases hl : env.toQuicMultiaddr (env.sessionLocalAddr sess) with
          | error e => simp [Dial, hargs, hga, haddr, hq, hl] at h
          | ok lma =>
            simp [Dial, hargs, hga, haddr, hq, hl] at h
            obtain ⟨hc, ht, htr⟩ := h
            obtain ⟨pk, hpk, hcap, hsessEq⟩ := quicDialContext_ok_verify env.quicNet
              pconn addr host (dialTLSConf env.crypto t.tlsConf p)
              (verifyPeerCertificateCallback env.crypto p) sess cap rfl hq
            refine ⟨pk, hpk, ?_, ?_, ?_, ?_, ?_⟩ <;> simp [← hc, hcap]

/-- C1: for every dial in which the remote party presents a certificate
chain whose extracted public key derives a peer ID `q` with `q ≠ p`, the
verification callback installed on the cloned TLS configuration returns
the identity-mismatch error, and `Dial` returns an error and no
connection. -/
theorem dial_identity_mismatch
    (env : DialEnv) (t : Transport) (raddr : Multiaddr) (p : PeerID)
    (chain : List Certificate) (pk : PubKey) (q : PeerID)
    (hparse : env.quicNet.remoteCerts.mapM env.crypto.parseCertificate = Except.ok chain)
    (hkey : env.crypto.getRemotePubKey chain = Except.ok pk)
    (hid : env.crypto.idFromPublicKey pk = Except.ok q)
    (hne : q ≠ p) :
    verifyPeerCertificateCallback env.crypto p env.quicNet.remoteCerts
        = Except.error Err.peerIDsDontMatch
    ∧ ∀ c t' tr, Dial env t raddr p ≠ (Except.ok c, t', tr) := by
  have hmatch : matchesPublicKey env.crypto p pk = false := by
    unfold matchesPublicKey
    rw [hid]
    simp [hne]
  have hcb : verifyPeerCertificateCallback env.crypto p env.quicNet.remoteCerts
      = Except.error Err.peerIDsDontMatch := by
    unfold verifyPeerCertificateCallback
    split
    · rename_i e heq
      rw [hparse] at heq
      exact Except.noConfusion heq
    · rename_i chain2 heq
      rw [hparse] at heq
      injection heq with heq2
      subst heq2
      split
      · rename_i e heq2
        rw [hkey] at heq2
        exact Except.noConfusion heq2
      · rename_i rpk heq2
        rw [hkey] at heq2
        injection heq2 with heq3
        subst heq3
        simp [hmatch]
  refine ⟨hcb, ?_⟩
  intro c t' tr hcontra
  obtain ⟨pk2, hpk2, -⟩ := Dial_ok_inv env t raddr p c t' tr hcontra
  rw [hcb] at hpk2
  exact Except.noConfusion hpk2

/-- Witness for C1: dialing peer 5 while the remote's certificate derives
peer 10 makes the callback reject and the dial fail. -/
theorem dial_identity_mismatch_witness :
    verifyPeerCertificateCallback dialEnvW.crypto 5 dialEnvW.quicNet.remoteCerts
        = Except.error Err.peerIDsDontMatch
    ∧ Dial dialEnvW transportW 77 5
        ≠ (Except.ok connW, transportW1, [DialAction.sessionEstablished 3]) := by
  have H := dial_identity_mismatch dialEnvW transportW 77 5 [9] 9 10 rfl rfl rfl (by decide)
  exact ⟨H.1, H.2 connW transportW1 [DialAction.sessionEstablished 3]⟩

/-- C2: every successful dial returns a connection whose remote peer ID is
the dialed `p`, whose remote public key is exactly the key the
verification callback extracted from the presented chain, and whose local
identity and remote multiaddr come from the transport and the call. -/
theorem dial_success_remote_identity
    (env : DialEnv) (t : Transport) (raddr : Multiaddr) (p : PeerID)
    (c : Conn) (t' : Transport) (tr : List DialAction)
    (h : Dial env t raddr p = (Except.ok c, t', tr)) :
    c.remotePeerID = p
    ∧ (∃ pk, verifyPeerCertificateCallback env.crypto p env.quicNet.remoteCerts
          = Except.ok pk ∧ c.remotePubKey = some pk)
    ∧ c.localPeer = t.localPeer ∧ c.privKey = t.privKey ∧ c.remoteMultiaddr = raddr := by
  obtain ⟨pk, hpk, hcap, hpid, hlp, hpriv, hrma⟩ := Dial_ok_inv env t raddr p c t' tr h
  exact ⟨hpid, ⟨pk, hpk, hcap⟩, hlp, hpriv, hrma⟩

/-- Witness for C2: the successful dial to peer 10 yields the expected
connection fields. -/
theorem dial_success_remote_identity_witness :
    connW.remotePeerID = 10
    ∧ verifyPeerCertificateCallback dialEnvW.crypto 10 dialEnvW.quicNet.remoteCerts
        = Except.ok 9
    ∧ connW.remotePubKey = some 9
    ∧ connW.localPeer = transportW.localPeer
    ∧ connW.privKey = transportW.privKey
    ∧ connW.remoteMultiaddr = 77 := by
  have H := dial_success_remote_identity dialEnvW transportW 77 10 connW transportW1
    [DialAction.sessionEstablished 3] rfl
  obtain ⟨h1, ⟨pk, hpk, hcap⟩, h3, h4, h5⟩ := H
  have hpk9 : pk = 9 := by
    have h9 : (some pk : Option PubKey) = some 9 := by
      rw [← hcap]
      rfl
    injection h9
  subst hpk9
  exact ⟨h1, hpk, hcap, h3, h4, h5⟩

/-- C3: a dial that returns a connection never returns it in a
partially-verified state: the remote public key field is populated (not
the zero value) and the key it holds matches the dialed peer ID. -/
theorem dial_no_partial_verification
    (env : DialEnv) (t : Transport) (raddr : Multiaddr) (p : PeerID)
    (c : Conn) (t' : Transport) (tr : List DialAction)
    (h : Dial env t raddr p = (Except.ok c, t', tr)) :
    c.remotePubKey ≠ none
    ∧ ∃ pk, c.remotePubKey = some pk ∧ matchesPublicKey env.crypto p pk = true
        ∧ c.remotePeerID = p := by
  obtain ⟨pk, hpk, hcap, hpid, -, -, -⟩ := Dial_ok_inv env t raddr p c t' tr h
  have hm := verifyPeerCertificateCallback_ok env.crypto p env.quicNet.remoteCerts pk hpk
  refine ⟨?_, pk, hcap, hm, hpid⟩
  rw [hcap]
  simp

/-- Witness for C3: the connection from the successful dial to peer 10
holds a verified, populated remote key. -/
theorem dial_no_partial_verification_witness :
    connW.remotePubKey ≠ none
    ∧ connW.remotePubKey = some 9
    ∧ matchesPublicKey dialEnvW.crypto 10 9 = true
    ∧ connW.remotePeerID = 10 := by
  have H := dial_no_partial_verification dialEnvW transportW 77 10 connW transportW1
    [DialAction.sessionEstablished 3] rfl
  obtain ⟨hne, pk, hcap, hm, hpid⟩ := H
  have hpk9 : pk = 9 := by
    have h9 : (some pk : Option PubKey) = some 9 := by
      rw [← hcap]
      rfl
    injection h9
  subst hpk9
  exact ⟨hne, hcap, hm, hpid⟩

/-- C4: acquiring a family's socket twice sequentially (the first call
succeeding) returns the identical handle both times with no further
creation and no state change, a udp4 acquisition leaves the udp6 slot
untouched and never returns the socket stored for udp6 (and vice versa),
provided stored and freshly created handles are distinct. -/
theorem GetConnForAddr_idempotent_isolated
    (env env2 : NetEnv) (c c1 : ConnManager) (network : String) (h : PacketConn)
    (hfam : network = "udp4" ∨ network = "udp6")
    (h1 : GetConnForAddr env c network = (Except.ok h, c1)) :
    GetConnForAddr env2 c1 network = (Except.ok h, c1)
    ∧ (network = "udp4" → c1.connIPv6 = c.connIPv6
        ∧ ∀ h6, c.connIPv6 = some h6 →
            (∀ h4, c.connIPv4 = some h4 → h4 ≠ h6) →
            (∀ hc, createConn env network "0.0.0.0:0" = Except.ok hc → hc ≠ h6) →
            h ≠ h6)
    ∧ (network = "udp6" → c1.connIPv4 = c.connIPv4
        ∧ ∀ h4, c.connIPv4 = some h4 →
            (∀ h6, c.connIPv6 = some h6 → h6 ≠ h4) →
            (∀ hc, createConn env network ":0" = Except.ok hc → hc ≠ h4) →
            h ≠ h4) := by
  rcases hfam with hf | hf
  · subst hf
    cases hc4 : c.connIPv4 with
    | some conn =>
      simp [GetConnForAddr, hc4] at h1
      obtain ⟨rfl, rfl⟩ := h1
      refine ⟨by simp [GetConnForAddr, hc4], ?_, ?_⟩
      · intro _
        refine ⟨rfl, ?_⟩
        intro h6 hc6 hstored hfresh
        exact hstored conn rfl
      · intro hx
        exact absurd hx (by decide)
    | none =>
      cases hcr : createConn env "udp4" "0.0.0.0:0" with
      | error e => simp [GetConnForAddr, hc4, hcr] at h1
      | ok conn =>
        simp [GetConnForAddr, hc4, hcr] at h1
        obtain ⟨rfl, rfl⟩ := h1
        refine ⟨by simp [GetConnForAddr], ?_, ?_⟩
        · intro _
          refine ⟨by simp, ?_⟩
          intro h6 hc6 hstored hfresh
          exact hfresh conn rfl
        · intro hx
          exact absurd hx (by decide)
  · subst hf
    cases hc6 : c.connIPv6 with
    | some conn =>
      simp [GetConnForAddr, hc6] at h1
      obtain ⟨rfl, rfl⟩ := h1
      refine ⟨by simp [GetConnForAddr, hc6], ?_, ?_⟩
      · intro hx
        exact absurd hx (by decide)
      · intro _
        refine ⟨rfl, ?_⟩
        intro h4 hc4 hstored hfresh
        exact hstored conn rfl
    | none =>
      cases hcr : createConn env "udp6" ":0" with
      | error e => simp [GetConnForAddr, hc6, hcr] at h1
      | ok conn =>
        simp [GetConnForAddr, hc6, hcr] at h1
        obtain ⟨rfl, rfl⟩ := h1
        refine ⟨by simp [GetConnForAddr], ?_, ?_⟩
        · intro hx
          exact absurd hx (by decide)
        · intro _
          refine ⟨by simp, ?_⟩
          intro h4 hc4 hstored hfresh
          exact hfresh conn rfl

/-- Witness for C4: a second udp4 acquisition returns the same handle 42
under a different socket oracle, the udp6 slot is untouched, and the
returned handle is not the stored udp6 socket 7. -/
theorem GetConnForAddr_idempotent_isolated_witness :
    GetConnForAddr netEnvW2 connManagerW46 "udp4" = (Except.ok 42, connManagerW46)
    ∧ connManagerW46.connIPv6 = connManagerW6.connIPv6
    ∧ (42 : PacketConn) ≠ 7 := by
  have H := GetConnForAddr_idempotent_isolated netEnvW netEnvW2 connManagerW6
    connManagerW46 "udp4" 42 (Or.inl rfl) rfl
  refine ⟨H.1, (H.2.1 rfl).1, ?_⟩
  refine (H.2.1 rfl).2 7 rfl ?_ ?_
  · intro h4 hh
    simp [connManagerW6] at hh
  · intro hc hcr
    simp [createConn, netEnvW] at hcr
    subst hcr
    decide

/-- C5: any network string other than udp4 and udp6 fails with the
unsupported-network error carrying that string, returns no socket, and
leaves the pool unchanged. -/
theorem GetConnForAddr_unsupported (env : NetEnv) (c : ConnManager) (network : String)
    (h4 : network ≠ "udp4") (h6 : network ≠ "udp6") :
    GetConnForAddr env c network = (Except.error (Err.unsupportedNetwork network), c) := by
  simp [GetConnForAddr, h4, h6]

/-- Witness for C5: requesting the literal network udp5 fails and leaves
the empty pool empty. -/
theorem GetConnForAddr_unsupported_witness :
    GetConnForAddr netEnvW connManagerEmpty "udp5"
      = (Except.error (Err.unsupportedNetwork "udp5"), connManagerEmpty) :=
  GetConnForAddr_unsupported netEnvW connManagerEmpty "udp5" (by decide) (by decide)

/-- C6: a failed socket creation is propagated and not cached: the pool is
left with the failing family's slot still empty, and a later call for the
same family (under a new socket oracle) performs the creation again and
succeeds. -/
theorem GetConnForAddr_no_failure_cache
    (env : NetEnv) (c : ConnManager) (e4 e6 : Err)
    (h4 : c.connIPv4 = none) (h6 : c.connIPv6 = none)
    (hfail4 : createConn env "udp4" "0.0.0.0:0" = Except.error e4)
    (hfail6 : createConn env "udp6" ":0" = Except.error e6) :
    GetConnForAddr env c "udp4" = (Except.error e4, c)
    ∧ GetConnForAddr env c "udp6" = (Except.error e6, c)
    ∧ (∀ env2 hc, createConn env2 "udp4" "0.0.0.0:0" = Except.ok hc →
        GetConnForAddr env2 c "udp4" = (Except.ok hc, { c with connIPv4 := some hc }))
    ∧ (∀ env2 hc, createConn env2 "udp6" ":0" = Except.ok hc →
        GetConnForAddr env2 c "udp6" = (Except.ok hc, { c with connIPv6 := some hc })) := by
  obtain ⟨cv4, cv6⟩ := c
  dsimp only at h4 h6
  subst h4
  subst h6
  refine ⟨?_, ?_, ?_, ?_⟩
  · simp [GetConnForAddr, hfail4]
  · simp [GetConnForAddr, hfail6]
  · intro env2 hc hcr
    simp [GetConnForAddr, hcr]
  · intro env2 hc hcr
    simp [GetConnForAddr, hcr]

/-- Witness for C6: with an always-failing socket oracle both families
propagate the creation error on an empty pool, and a later udp4 call with
a working oracle creates and caches socket 42. -/
theorem GetConnForAddr_no_failure_cache_witness :
    GetConnForAddr netEnvFail connManagerEmpty "udp4"
      = (Except.error (Err.other 1), connManagerEmpty)
    ∧ GetConnForAddr netEnvFail connManagerEmpty "udp6"
      = (Except.error (Err.other 1), connManagerEmpty)
    ∧ GetConnForAddr netEnvW connManagerEmpty "udp4" = (Except.ok 42, connManagerW1) := by
  have H := GetConnForAddr_no_failure_cache netEnvFail connManagerEmpty (Err.other 1)
    (Err.other 1) rfl rfl rfl rfl
  exact ⟨H.1, H.2.1, H.2.2.1 netEnvW 42 rfl⟩

/-- C7: a dial installs its verification callback only on a clone of the
shared TLS template: after any dial, successful or failed, the transport's
`tlsConf` (callback field included), `privKey` and `localPeer` are
unchanged, while the per-dial clone keeps the template's certificate
material and carries the injected callback. -/
theorem dial_template_isolation (env : DialEnv) (t : Transport) (raddr : Multiaddr)
    (p : PeerID) :
    (Dial env t raddr p).2.1.tlsConf = t.tlsConf
    ∧ (Dial env t raddr p).2.1.privKey = t.privKey
    ∧ (Dial env t raddr p).2.1.localPeer = t.localPeer
    ∧ (dialTLSConf env.crypto t.tlsConf p).certChain = t.tlsConf.certChain
    ∧ (dialTLSConf env.crypto t.tlsConf p).verifyPeerCertificate
        = some (verifyPeerCertificateCallback env.crypto p) := by
  refine ⟨?_, ?_, ?_, rfl, rfl⟩ <;> unfold Dial <;> dsimp only <;> (repeat' split) <;> rfl

/-- C8: `CanDial` is the pure grammar predicate (true exactly when the
matcher accepts the address, independent of the transport value),
`Protocols` is always the singleton quic protocol tag, and `Proxy` is
always false. -/
theorem capability_queries (g : Multiaddr → Bool) (t : Transport) (addr : Multiaddr) :
    (CanDial g t addr = true ↔ g addr = true)
    ∧ (∀ t2, CanDial g t addr = CanDial g t2 addr)
    ∧ Protocols t = [pQUIC]
    ∧ Proxy t = false :=
  ⟨Iff.rfl, fun _ => rfl, rfl, rfl⟩

/-- C9: when the remote multiaddr does not translate to a network/host
pair, `Dial` returns that translation error at once: no connection, no
socket acquired, the whole transport (pool included) unchanged. -/
theorem dial_addr_translation_error
    (env : DialEnv) (t : Transport) (raddr : Multiaddr) (p : PeerID) (e : Err)
    (h : env.dialArgs raddr = Except.error e) :
    Dial env t raddr p = (Except.error e, t, []) := by
  simp [Dial, h]

/-- Witness for C9: a failing dial-args translation aborts the dial and
leaves the transport untouched. -/
theorem dial_addr_translation_error_witness :
    Dial dialEnvArgFail transportW 1 2 = (Except.error (Err.other 2), transportW, []) :=
  dial_addr_translation_error dialEnvArgFail transportW 1 2 (Err.other 2) rfl

/-- C10: if the session is established but the session's local address
fails to translate back to a multiaddr, `Dial` returns the translation
error and no connection, and no close action is ever emitted: the
established session is not torn down. -/
theorem dial_local_translation_error_no_close
    (env : DialEnv) (t : Transport) (raddr : Multiaddr) (p : PeerID)
    (network host : String) (pconn : PacketConn) (cm : ConnManager) (addr : UDPAddr)
    (sess : Session) (cap : Option PubKey) (e : Err)
    (hargs : env.dialArgs raddr = Except.ok (network, host))
    (hconn : GetConnForAddr env.netEnv t.connManager network = (Except.ok pconn, cm))
    (haddr : env.fromQuicMultiaddr raddr = Except.ok addr)
    (hsess : quicDialContext env.quicNet pconn addr host
        (dialTLSConf env.crypto t.tlsConf p) = Except.ok (sess, cap))
    (hlocal : env.toQuicMultiaddr (env.sessionLocalAddr sess) = Except.error e) :
    Dial env t raddr p
      = (Except.error e, { t with connManager := cm }, [DialAction.sessionEstablished sess])
    ∧ ∀ s, DialAction.sessionClosed s ∉ (Dial env t raddr p).2.2 := by
  have hd : Dial env t raddr p
      = (Except.error e, { t with connManager := cm },
         [DialAction.sessionEstablished sess]) := by
    simp [Dial, hargs, hconn, haddr, hsess, hlocal]
  refine ⟨hd, ?_⟩
  intro s
  rw [hd]
  simp

/-- Witness for C10: with a failing local-address back-translation the
dial returns the error, the session-established action is traced, and no
session-closed action appears. -/
theorem dial_local_translation_error_no_close_witness :
    Dial dialEnvLocalFail transportW 77 10
      = (Except.error (Err.other 3), transportW1, [DialAction.sessionEstablished 3])
    ∧ DialAction.sessionClosed 3 ∉ (Dial dialEnvLocalFail transportW 77 10).2.2 := by
  have H := dial_local_translation_error_no_close dialEnvLocalFail transportW 77 10
    "udp4" "192.0.2.1:4001" 42 connManagerW1 77 3 (some 9) (Err.other 3)
    rfl rfl rfl rfl rfl
  exact ⟨H.1, H.2 3⟩
